import Mathlib

/-!
Shallow embedding of `src/monitor.py` (HyperliquidMonitor), the single source
file of the repository.  Timestamps are modelled as integers (seconds), and
the floating-point numeric fields of the Python program as rationals.  The
HTTP layer is modelled as a stream of fetch outcomes consumed in program
order; each call of `get_account_info` consumes one outcome.
-/

namespace HyperliquidMonitor

/-- Seven days in seconds; models `timedelta(days=7)` used at line 75. -/
def sevenDays : Int := 604800

/-- One entry of `self.equity_history`: the dict
`{'timestamp': datetime.now(), 'value': total_value}` built at lines 69-72. -/
structure EquitySample where
  timestamp : Int
  value : ℚ
deriving DecidableEq, Repr

/-- The inner `position` dict of a raw asset-position entry, with the fields
read at lines 41-44 (`coin`, `szi`, `entryPx`, optional `unrealizedPnl`).
Numeric strings are modelled already parsed, as rationals. -/
structure RawPosition where
  coin : String
  szi : ℚ
  entryPx : ℚ
  unrealizedPnl : Option ℚ
deriving DecidableEq, Repr

/-- One element of the raw `assetPositions` array: a wrapper dict whose
`position` key holds the actual position data (line 40). -/
structure RawEntry where
  position : RawPosition
deriving DecidableEq, Repr

/-- The `marginSummary` dict; only `accountValue` is read (line 66),
and it may be absent. -/
structure MarginSummary where
  accountValue : Option ℚ
deriving DecidableEq, Repr

/-- The parsed JSON response of the clearinghouseState query.  The code reads
the keys `error`, `assetPositions` and `marginSummary`; real responses may
carry further keys, which matter only for Python dict truthiness, so they are
abstracted by the flag `otherFields` (true iff any unmodelled key is
present). -/
structure ApiData where
  error : Option String
  assetPositions : Option (List RawEntry)
  marginSummary : Option MarginSummary
  otherFields : Bool
deriving DecidableEq, Repr

/-- Python truthiness of the response dict (`if not data:` at lines 34 and
61): a dict is truthy iff it has at least one key. -/
def ApiData.truthy (d : ApiData) : Bool :=
  d.error.isSome || d.assetPositions.isSome || d.marginSummary.isSome || d.otherFields

/-- Outcome of one HTTP round trip: either the request raised
(network error, timeout, unparseable body - the `except Exception` arm at
line 27), or it produced a parsed JSON object. -/
inductive FetchOutcome where
  | exn : FetchOutcome
  | ok : ApiData → FetchOutcome
deriving DecidableEq, Repr

/-- `get_account_info` (lines 14-29): returns the parsed data, or `none` when
the request raised or when the response carries an `error` key; both failure
arms print a message and return `None`. -/
def get_account_info : FetchOutcome → Option ApiData
  | FetchOutcome.exn => none
  | FetchOutcome.ok d => if d.error.isSome then none else some d

/-- Whether `get_account_info` printed an error message for this outcome:
both `return None` arms (lines 24-25 and 28-29) are preceded by a print. -/
def fetchErrorLogged (r : FetchOutcome) : Bool :=
  (get_account_info r).isNone

/-- Direction of an open position, derived from the sign of `szi`
(line 47). -/
inductive Direction where
  | LONG : Direction
  | SHORT : Direction
deriving DecidableEq, Repr

/-- One normalized position dict appended at lines 48-54. -/
structure PositionRecord where
  symbol : String
  size : ℚ
  direction : Direction
  entry_price : ℚ
  unrealized_pnl : ℚ
deriving DecidableEq, Repr

/-- The body of the `for pos in data['assetPositions']` loop (lines 39-54)
for a single entry: parse the numeric fields (missing `unrealizedPnl`
defaults to `0`), and produce a record only when the signed size is
nonzero. -/
def extractEntry (p : RawPosition) : Option PositionRecord :=
  let size := p.szi
  let entry_px := p.entryPx
  let unrealized_pnl := p.unrealizedPnl.getD 0
  if size ≠ 0 then
    some { symbol := p.coin
           size := |size|
           direction := if size > 0 then Direction.LONG else Direction.SHORT
           entry_price := entry_px
           unrealized_pnl := unrealized_pnl }
  else
    none

/-- `get_positions` (lines 31-56): one fetch; `None` or a falsy dict yields
`[]`; otherwise the entries of `assetPositions` (if present) are folded
through the loop body. -/
def get_positions (r : FetchOutcome) : List PositionRecord :=
  match get_account_info r with
  | none => []
  | some d =>
    if d.truthy then
      match d.assetPositions with
      | none => []
      | some entries => entries.filterMap (fun e => extractEntry e.position)
    else []

/-- Lines 68-77 of `get_account_value`: append the new sample at the tail of
`equity_history`, then rebuild the list keeping only the samples whose
timestamp is strictly greater than `now - 7 days`. -/
def appendSample (now : Int) (value : ℚ) (hist : List EquitySample) :
    List EquitySample :=
  let appended := hist ++ [{ timestamp := now, value := value }]
  let seven_days_ago := now - sevenDays
  appended.filter (fun h => decide (seven_days_ago < h.timestamp))

/-- `get_account_value` (lines 58-79): one fetch; on `None` or a falsy dict
return `0` leaving the history untouched; otherwise read
`marginSummary.accountValue` (each level defaulting to `0` when absent),
record the sample, and return the value.  The pair is
(returned value, equity history after the call). -/
def get_account_value (r : FetchOutcome) (hist : List EquitySample)
    (now : Int) : ℚ × List EquitySample :=
  match get_account_info r with
  | none => (0, hist)
  | some d =>
    if d.truthy then
      let total_value : ℚ :=
        match d.marginSummary with
        | some m => m.accountValue.getD 0
        | none => 0
      (total_value, appendSample now total_value hist)
    else (0, hist)

/-- Models `pd.DataFrame(self.equity_history)` at line 124: the frame is
built by eagerly copying every row's fields out of the history list. -/
def snapshotDF (hist : List EquitySample) : List EquitySample :=
  hist.map (fun s => { timestamp := s.timestamp, value := s.value })

/-- Models `datetime.now().strftime("%Y%m%d_%H%M%S")` at line 167; the
calendar rendering of the instant is abstracted to its decimal rendering. -/
def fmtTimestamp (now : Int) : String := toString now

/-- The chart artifact filename `f"account_value_{timestamp}.png"`
(line 168). -/
def chartFilename (now : Int) : String :=
  "account_value_" ++ fmtTimestamp now ++ ".png"

/-- The percent-change statistic of line 156:
`((latest - first) / first * 100)` when the first value is nonzero, else
`0`. -/
def chartChange (hist : List EquitySample) : ℚ :=
  let vals := hist.map EquitySample.value
  let first := vals.headD 0
  let latest_value := vals.getLastD 0
  if first ≠ 0 then (latest_value - first) / first * 100 else 0

/-- The annotations drawn on the saved figure, and its filename
(lines 144-169). -/
structure ChartArtifact where
  filename : String
  latestVal : ℚ
  maxVal : ℚ
  minVal : ℚ
  change : ℚ
deriving DecidableEq, Repr

/-- `plot_account_value` (lines 117-172): with fewer than 2 samples, print
`Insufficient data for chart` and return without producing a file; otherwise
save a figure named from the current timestamp, annotated with the
latest/max/min/percent-change statistics of the supplied history. -/
def plot_account_value (now : Int) (hist : List EquitySample) :
    Option ChartArtifact :=
  if hist.length < 2 then none
  else
    let vals := hist.map EquitySample.value
    let latest_value := vals.getLastD 0
    some { filename := chartFilename now
           latestVal := latest_value
           maxVal := vals.foldl max (vals.headD 0)
           minVal := vals.foldl min (vals.headD 0)
           change := chartChange hist }

/-- The most recent retained equity sample: the last element of the history
list (the column read as `df['value'].iloc[-1]` at line 145). -/
def latestSample (hist : List EquitySample) : Option EquitySample :=
  hist.getLast?

/-- The mutable state of the monitor loop: `self.equity_history` and the
local `last_plot_time` (line 176). -/
structure LoopState where
  hist : List EquitySample
  lastPlotTime : Int
deriving DecidableEq, Repr

/-- What one iteration of the `while True` body renders: the positions
table, the account value printed by `display_positions`, whether a fetch
error message was printed, the instant of the tick, and the chart attempt
(`none` when the plot interval had not elapsed; `some r` when
`plot_account_value` ran with outcome `r`). -/
structure TickOutput where
  displayedPositions : List PositionRecord
  displayedValue : ℚ
  errorLogged : Bool
  time : Int
  chartRendered : Option (Option ChartArtifact)
deriving DecidableEq, Repr

/-- Result of one loop iteration: the new state, what was rendered, and the
rest of the fetch stream. -/
structure TickResult where
  state : LoopState
  output : TickOutput
  stream : List FetchOutcome
deriving DecidableEq, Repr

/-- One iteration of the `while True` body (lines 182-199), at instant
`now`: `get_positions` performs the first fetch; `display_positions`
(line 89) calls `get_account_value`, which performs the second fetch and the
append; then, if `plot_interval` has elapsed since `last_plot_time`, the
chart is generated from the history as updated by this tick.  A dry stream
behaves as a raised request (`exn`). -/
def monitorTick (plot_interval now : Int) (st : LoopState)
    (stream : List FetchOutcome) : TickResult :=
  let r1 := stream.headD FetchOutcome.exn
  let rest1 := stream.tail
  let positions := get_positions r1
  let r2 := rest1.headD FetchOutcome.exn
  let rest2 := rest1.tail
  let fetched := get_account_value r2 st.hist now
  let doChart := plot_interval ≤ now - st.lastPlotTime
  { state :=
      { hist := fetched.2
        lastPlotTime := if doChart then now else st.lastPlotTime }
    output :=
      { displayedPositions := positions
        displayedValue := fetched.1
        errorLogged := fetchErrorLogged r1 || fetchErrorLogged r2
        time := now
        chartRendered :=
          if doChart then some (plot_account_value now fetched.2) else none }
    stream := rest2 }

/-- Result of a whole monitor session: the rendered ticks in order, the
state at the stop signal, whether the session ended stopped, and the final
chart attempt of the `except KeyboardInterrupt` handler (`none` when the
history was empty and no render was attempted). -/
structure MonitorResult where
  ticks : List TickOutput
  finalState : LoopState
  stopped : Bool
  finalRender : Option (Option ChartArtifact)
deriving DecidableEq, Repr

/-- `monitor` (lines 174-206): run `n` loop iterations starting at instant
`now` (each tick advances the clock by `update_interval`), then receive the
stop signal, which is observed between ticks (the interrupt unwinds out of
the sleep); the handler attempts one final `plot_account_value` iff
`self.equity_history` is nonempty, and the function then returns. -/
def monitor (update_interval plot_interval : Int) :
    Nat → List FetchOutcome → Int → LoopState → MonitorResult
  | 0, _, now, st =>
    { ticks := []
      finalState := st
      stopped := true
      finalRender :=
        if st.hist.isEmpty then none
        else some (plot_account_value now st.hist) }
  | Nat.succ n, stream, now, st =>
    let t := monitorTick plot_interval now st stream
    let res := monitor update_interval plot_interval n t.stream
        (now + update_interval) t.state
    { ticks := t.output :: res.ticks
      finalState := res.finalState
      stopped := res.stopped
      finalRender := res.finalRender }

/-- A successful response carrying an empty `assetPositions` array and the
given `accountValue`; used to describe concrete fetch sequences. -/
def okValue (x : ℚ) : FetchOutcome :=
  FetchOutcome.ok
    { error := none
      assetPositions := some []
      marginSummary := some { accountValue := some x }
      otherFields := false }

end HyperliquidMonitor

namespace HyperliquidMonitor

/- Helper lemmas shared by several claim theorems. -/

theorem appendSample_eq (now : Int) (v : ℚ) (h : List EquitySample) :
    appendSample now v h
      = h.filter (fun s => decide (now - sevenDays < s.timestamp))
          ++ [{ timestamp := now, value := v }] := by
  unfold appendSample
  rw [List.filter_append]
  have hx : decide ((0 : Int) < sevenDays) = true := by decide
  simp [List.filter, hx]

theorem appendSample_keep (now : Int) (v : ℚ) (h : List EquitySample)
    (hall : ∀ s ∈ h, now - sevenDays < s.timestamp) :
    appendSample now v h = h ++ [{ timestamp := now, value := v }] := by
  rw [appendSample_eq]
  have : h.filter (fun s => decide (now - sevenDays < s.timestamp)) = h :=
    List.filter_eq_self.mpr (fun a ha => decide_eq_true (hall a ha))
  rw [this]

/-- C1 (counterexample): with `now = 604800` the cutoff `now - 7 days` is
`0`; the sample at timestamp `0` is NOT older than the cutoff (first
conjunct), yet the append evicts it (second conjunct), because the code
keeps only samples with timestamp strictly greater than the cutoff
(`h['timestamp'] > seven_days_ago`).  So a sample lying exactly on the
window boundary is evicted even though it is not older than `now - 7d`. -/
theorem c1_boundary_sample_evicted_counterexample :
    ¬ ((0 : Int) < 604800 - sevenDays) ∧
    appendSample 604800 7 [{ timestamp := 0, value := 5 }]
      = [{ timestamp := 604800, value := 7 }] := by
  constructor
  · decide
  · decide

/-- C1 (amended): every append inserts the new sample at the tail and then
unconditionally evicts exactly the samples whose timestamp is NOT strictly
newer than `now - 7 days`; afterwards every remaining sample is strictly
newer than `now - 7 days` (hence no sample older than the cutoff remains),
and the surviving old samples are a sublist of the original history, i.e.
they keep their original relative order. -/
theorem c1_append_evicts_amended (h : List EquitySample) (now : Int) (v : ℚ) :
    appendSample now v h
      = h.filter (fun s => decide (now - sevenDays < s.timestamp))
          ++ [{ timestamp := now, value := v }] ∧
    (∀ s ∈ appendSample now v h, now - sevenDays < s.timestamp) ∧
    (h.filter (fun s => decide (now - sevenDays < s.timestamp))).Sublist h := by
  refine ⟨appendSample_eq now v h, ?_, List.filter_sublist h⟩
  intro s hs
  unfold appendSample at hs
  rw [List.mem_filter] at hs
  simpa using hs.2

/-- C2: for every raw position entry, a zero signed size excludes the entry
from the extraction output; a nonzero signed size produces exactly one
record, LONG iff the size is positive, with `size = |szi|`, and a missing
`unrealizedPnl` defaulting to `0`; and the extraction output is exactly the
per-entry map over the raw `assetPositions` list. -/
theorem c2_position_extraction (d : ApiData) (entries : List RawEntry)
    (herr : d.error = none) (hpos : d.assetPositions = some entries) :
    get_positions (FetchOutcome.ok d)
      = entries.filterMap (fun e => extractEntry e.position) ∧
    ∀ e ∈ entries,
      (e.position.szi = 0 → extractEntry e.position = none) ∧
      (e.position.szi ≠ 0 →
        ∃ r, extractEntry e.position = some r ∧
          (r.direction = Direction.LONG ↔ 0 < e.position.szi) ∧
          r.size = |e.position.szi| ∧
          (e.position.unrealizedPnl = none → r.unrealized_pnl = 0)) := by
  constructor
  · simp [get_positions, get_account_info, herr, hpos, ApiData.truthy]
  · intro e _
    constructor
    · intro h0
      simp [extractEntry, h0]
    · intro hne
      refine ⟨{ symbol := e.position.coin
                size := |e.position.szi|
                direction :=
                  (if e.position.szi > 0 then Direction.LONG
                   else Direction.SHORT)
                entry_price := e.position.entryPx
                unrealized_pnl := e.position.unrealizedPnl.getD 0 },
              ?_, ?_, rfl, ?_⟩
      · simp [extractEntry, hne]
      · by_cases hp : (0 : ℚ) < e.position.szi
        · simp [hp]
        · simp [hp]
      · intro hn
        simp [hn]

/-- Witness for C2 at a concrete response holding one SHORT entry of signed
size `-(5/2)` with `unrealizedPnl` absent. -/
theorem c2_witness :
    (get_positions (FetchOutcome.ok
        (⟨none, some [⟨⟨"ETH", -(5/2), 10, none⟩⟩], none, false⟩ : ApiData))
      = [(⟨⟨"ETH", -(5/2), 10, none⟩⟩ : RawEntry)].filterMap
          (fun e => extractEntry e.position)) ∧
    ∀ e ∈ [(⟨⟨"ETH", -(5/2), 10, none⟩⟩ : RawEntry)],
      (e.position.szi = 0 → extractEntry e.position = none) ∧
      (e.position.szi ≠ 0 →
        ∃ r, extractEntry e.position = some r ∧
          (r.direction = Direction.LONG ↔ 0 < e.position.szi) ∧
          r.size = |e.position.szi| ∧
          (e.position.unrealizedPnl = none → r.unrealized_pnl = 0)) :=
  c2_position_extraction
    ⟨none, some [⟨⟨"ETH", -(5/2), 10, none⟩⟩], none, false⟩
    [⟨⟨"ETH", -(5/2), 10, none⟩⟩]
    rfl rfl

/-- C9: whenever the underlying fetch fails - the request raised, or the
response carried an error payload, i.e. whenever `get_account_info` returns
`None` - `get_account_value` returns `0` and the equity history is left
completely unchanged: no sample is appended and no eviction runs. -/
theorem c9_fetch_failure_leaves_history (r : FetchOutcome)
    (hist : List EquitySample) (now : Int)
    (hfail : get_account_info r = none) :
    get_account_value r hist now = (0, hist) := by
  unfold get_account_value
  rw [hfail]

/-- Witness for C9 at an error-payload response and a nonempty history. -/
theorem c9_witness :
    get_account_value
        (FetchOutcome.ok
          { error := some "Invalid address", assetPositions := none,
            marginSummary := none, otherFields := false })
        [{ timestamp := 3, value := 4 }] 9
      = (0, [{ timestamp := 3, value := 4 }]) :=
  c9_fetch_failure_leaves_history
    (FetchOutcome.ok
      { error := some "Invalid address", assetPositions := none,
        marginSummary := none, otherFields := false })
    [{ timestamp := 3, value := 4 }] 9 rfl

/-- C10 (counterexample): an entirely empty response dict is a successful
fetch (`get_account_info` returns it unchanged, first conjunct) that lacks
`marginSummary`; the claim demands that a sample with value `0` be appended,
but the code's truthiness test `if not data:` treats the empty dict like a
failure: it returns `0` WITHOUT appending anything (second conjunct - the
history stays empty). -/
theorem c10_empty_snapshot_counterexample :
    get_account_info
        (FetchOutcome.ok
          { error := none, assetPositions := none, marginSummary := none,
            otherFields := false })
      = some { error := none, assetPositions := none, marginSummary := none,
               otherFields := false } ∧
    get_account_value
        (FetchOutcome.ok
          { error := none, assetPositions := none, marginSummary := none,
            otherFields := false })
        [] 0
      = (0, []) := by
  constructor
  · decide
  · decide

/-- C10 (amended): if the fetch succeeds with a NON-EMPTY snapshot (at least
one key present) that lacks `marginSummary`, or whose `marginSummary` lacks
`accountValue`, then the reader appends a sample with value `0` (run through
the usual eviction) and returns `0`; an entirely empty snapshot is instead
treated like a failed fetch (value `0`, no append). -/
theorem c10_missing_margin_amended (d : ApiData) (hist : List EquitySample)
    (now : Int) (herr : d.error = none) (htru : d.truthy = true)
    (hms : d.marginSummary = none ∨
           d.marginSummary = some { accountValue := none }) :
    get_account_value (FetchOutcome.ok d) hist now
      = (0, appendSample now 0 hist) ∧
    { timestamp := now, value := (0 : ℚ) }
      ∈ (get_account_value (FetchOutcome.ok d) hist now).2 := by
  have hinfo : get_account_info (FetchOutcome.ok d) = some d := by
    simp [get_account_info, herr]
  have hmain : get_account_value (FetchOutcome.ok d) hist now
      = (0, appendSample now 0 hist) := by
    unfold get_account_value
    rw [hinfo]
    rcases hms with h | h <;> simp [htru, h]
  refine ⟨hmain, ?_⟩
  rw [hmain, appendSample_eq]
  simp

/-- Witness for C10 (amended) at a snapshot carrying only an empty
`assetPositions` array. -/
theorem c10_witness :
    get_account_value
        (FetchOutcome.ok
          { error := none, assetPositions := some [], marginSummary := none,
            otherFields := false })
        [] 0
      = (0, appendSample 0 0 []) ∧
    { timestamp := 0, value := (0 : ℚ) }
      ∈ (get_account_value
          (FetchOutcome.ok
            { error := none, assetPositions := some [],
              marginSummary := none, otherFields := false })
          [] 0).2 :=
  c10_missing_margin_amended
    { error := none, assetPositions := some [], marginSummary := none,
      otherFields := false }
    [] 0 rfl (by decide) (Or.inl rfl)

end HyperliquidMonitor

namespace HyperliquidMonitor

/-- C4: the sequence handed to the chart renderer is a stable read-only
copy: the frame built from the history equals (as data) the history at the
moment it was taken, and appending a sample afterwards does not alter that
previously returned sequence - the appended sample shows up in the new
history but in no snapshot taken before the append (here witnessed through
its fresh timestamp). -/
theorem c4_snapshot_isolation (h : List EquitySample) (now : Int) (v : ℚ)
    (hfresh : ∀ s ∈ h, s.timestamp ≠ now) :
    snapshotDF h = h ∧
    { timestamp := now, value := v } ∈ appendSample now v h ∧
    ∀ s ∈ snapshotDF h, s.timestamp ≠ now := by
  have hcopy : snapshotDF h = h := by
    unfold snapshotDF
    exact List.map_id h
  refine ⟨hcopy, ?_, ?_⟩
  · rw [appendSample_eq]
    simp
  · rw [hcopy]
    exact hfresh

/-- Witness for C4: a one-sample history, then an append at a later
instant. -/
theorem c4_witness :
    snapshotDF [{ timestamp := 0, value := (1 : ℚ) }]
      = [{ timestamp := 0, value := (1 : ℚ) }] ∧
    { timestamp := 10, value := (2 : ℚ) }
      ∈ appendSample 10 2 [{ timestamp := 0, value := (1 : ℚ) }] ∧
    ∀ s ∈ snapshotDF [{ timestamp := 0, value := (1 : ℚ) }],
      s.timestamp ≠ 10 :=
  c4_snapshot_isolation [{ timestamp := 0, value := (1 : ℚ) }] 10 2
    (by decide)

/-- C7: chart generation with fewer than 2 samples is a reported no-op that
produces no artifact and returns normally to the caller; with 2 or more
samples it produces an artifact persisted under the timestamp-derived
filename. -/
theorem c7_chart_threshold (now : Int) (hist : List EquitySample) :
    (hist.length < 2 → plot_account_value now hist = none) ∧
    (2 ≤ hist.length →
      ∃ a, plot_account_value now hist = some a ∧
        a.filename = chartFilename now) := by
  constructor
  · intro hlt
    simp [plot_account_value, hlt]
  · intro hge
    have hnl : ¬ hist.length < 2 := not_lt.mpr hge
    refine ⟨{ filename := chartFilename now
              latestVal := (hist.map EquitySample.value).getLastD 0
              maxVal := (hist.map EquitySample.value).foldl max
                ((hist.map EquitySample.value).headD 0)
              minVal := (hist.map EquitySample.value).foldl min
                ((hist.map EquitySample.value).headD 0)
              change := chartChange hist }, ?_, rfl⟩
    simp [plot_account_value, hnl]

/-- Witness for C7: a one-sample history is a no-op, a two-sample history
yields the artifact. -/
theorem c7_witness :
    plot_account_value 5 [{ timestamp := 0, value := (1 : ℚ) }] = none ∧
    ∃ a, plot_account_value 5
        [{ timestamp := 0, value := (1 : ℚ) },
         { timestamp := 1, value := (2 : ℚ) }]
      = some a ∧ a.filename = chartFilename 5 :=
  ⟨(c7_chart_threshold 5 [{ timestamp := 0, value := (1 : ℚ) }]).1
      (by decide),
   (c7_chart_threshold 5
      [{ timestamp := 0, value := (1 : ℚ) },
       { timestamp := 1, value := (2 : ℚ) }]).2 (by decide)⟩

end HyperliquidMonitor

namespace HyperliquidMonitor

/- Helper lemmas about the loop and about the concrete fetch outcomes. -/

theorem monitor_ticks_length (ui pi : Int) :
    ∀ (n : Nat) (stream : List FetchOutcome) (now : Int) (st : LoopState),
      (monitor ui pi n stream now st).ticks.length = n := by
  intro n
  induction n with
  | zero => intro stream now st; rfl
  | succ n ih =>
    intro stream now st
    simp only [monitor, List.length_cons]
    rw [ih]

theorem monitor_ticks_times (ui pi : Int) :
    ∀ (n : Nat) (stream : List FetchOutcome) (now : Int) (st : LoopState),
      (monitor ui pi n stream now st).ticks.map TickOutput.time
        = (List.range n).map (fun k : Nat => now + ui * (k : Int)) := by
  intro n
  induction n with
  | zero => intro stream now st; rfl
  | succ n ih =>
    intro stream now st
    rw [List.range_succ_eq_map]
    simp only [monitor, List.map_cons, List.map_map, ih]
    congr 1
    · simp [monitorTick]
    · apply List.map_congr_left
      intro k _
      simp only [Function.comp_apply]
      push_cast
      ring

theorem get_account_value_okValue (x : ℚ) (hist : List EquitySample)
    (tm : Int) :
    get_account_value (okValue x) hist tm = (x, appendSample tm x hist) := by
  simp [okValue, get_account_value, get_account_info, ApiData.truthy]

theorem get_positions_okValue (x : ℚ) :
    get_positions (okValue x) = [] := by
  simp [okValue, get_positions, get_account_info, ApiData.truthy]

/-- C3: a fetch failure on a tick never terminates the monitor loop.  The
loop attempts all `n` scheduled ticks whatever the fetch outcomes (the
stream is arbitrary, so in particular tick `N+1` runs after a failure at
tick `N`), each tick at its scheduled instant `now + k * interval`; and a
tick whose fetches fail is a no-op render cycle: the history is unchanged,
an empty positions table and a `0` value are displayed, and the error is
logged. -/
theorem c3_fetch_failure_never_terminates (ui pi : Int) (n : Nat)
    (stream rest : List FetchOutcome) (now : Int) (st : LoopState) :
    ((monitor ui pi n stream now st).ticks.length = n ∧
     (monitor ui pi n stream now st).ticks.map TickOutput.time
       = (List.range n).map (fun k : Nat => now + ui * (k : Int))) ∧
    (monitorTick pi now st
      (FetchOutcome.exn :: FetchOutcome.exn :: rest)).state.hist = st.hist ∧
    (monitorTick pi now st
      (FetchOutcome.exn :: FetchOutcome.exn :: rest)).output.displayedPositions
      = [] ∧
    (monitorTick pi now st
      (FetchOutcome.exn :: FetchOutcome.exn :: rest)).output.displayedValue
      = 0 ∧
    (monitorTick pi now st
      (FetchOutcome.exn :: FetchOutcome.exn :: rest)).output.errorLogged
      = true := by
  refine ⟨⟨monitor_ticks_length ui pi n stream now st,
           monitor_ticks_times ui pi n stream now st⟩, ?_, ?_, ?_, ?_⟩ <;>
    simp [monitorTick, get_account_value, get_positions, get_account_info,
      fetchErrorLogged]

/-- C5 (counterexample): one tick starting from a two-element fetch stream
consumes BOTH elements - the loop body performs two account-state fetches
per tick (one in `get_positions`, a second inside `display_positions` via
`get_account_value`), not one.  Moreover the rendered tick mixes two
different snapshots: the displayed position comes from the first snapshot
(whose account value is `111`) while the appended equity sample records the
second snapshot's value `222`, so positions and equity sample are not
derived from a single fetched snapshot. -/
theorem c5_one_fetch_counterexample :
    ([okValue 111, okValue 222] : List FetchOutcome).length = 2 ∧
    (monitorTick 300 0 { hist := [], lastPlotTime := 0 }
      [FetchOutcome.ok
        { error := none
          assetPositions := some [{ position :=
            { coin := "BTC", szi := 1, entryPx := 5, unrealizedPnl := none } }]
          marginSummary := some { accountValue := some 111 }
          otherFields := false },
       okValue 222]).stream = [] ∧
    (monitorTick 300 0 { hist := [], lastPlotTime := 0 }
      [FetchOutcome.ok
        { error := none
          assetPositions := some [{ position :=
            { coin := "BTC", szi := 1, entryPx := 5, unrealizedPnl := none } }]
          marginSummary := some { accountValue := some 111 }
          otherFields := false },
       okValue 222]).output.displayedPositions
      = [{ symbol := "BTC", size := 1, direction := Direction.LONG,
           entry_price := 5, unrealized_pnl := 0 }] ∧
    (monitorTick 300 0 { hist := [], lastPlotTime := 0 }
      [FetchOutcome.ok
        { error := none
          assetPositions := some [{ position :=
            { coin := "BTC", szi := 1, entryPx := 5, unrealizedPnl := none } }]
          marginSummary := some { accountValue := some 111 }
          otherFields := false },
       okValue 222]).state.hist
      = [{ timestamp := 0, value := 222 }] ∧
    (111 : ℚ) ≠ 222 := by
  refine ⟨rfl, ?_, ?_, ?_, by decide⟩ <;> decide

/-- C5 (amended): each monitor tick performs exactly TWO account-state
fetches: the displayed positions are derived from the first fetched
snapshot and the appended equity sample (and displayed account value) from
the second; the two fetches may observe different states. -/
theorem c5_two_fetches_amended (pi now : Int) (st : LoopState)
    (stream : List FetchOutcome) (hlen : 2 ≤ stream.length) :
    (monitorTick pi now st stream).stream.length = stream.length - 2 ∧
    (monitorTick pi now st stream).output.displayedPositions
      = get_positions (stream.headD FetchOutcome.exn) ∧
    (monitorTick pi now st stream).state.hist
      = (get_account_value (stream.tail.headD FetchOutcome.exn)
          st.hist now).2 ∧
    (monitorTick pi now st stream).output.displayedValue
      = (get_account_value (stream.tail.headD FetchOutcome.exn)
          st.hist now).1 := by
  rcases stream with _ | ⟨a, _ | ⟨b, l⟩⟩
  · simp at hlen
  · simp at hlen
  · refine ⟨?_, ?_, ?_, ?_⟩ <;> simp [monitorTick]

/-- Witness for C5 (amended) at a concrete two-element stream of failed
fetches. -/
theorem c5_witness :
    (monitorTick 300 0 { hist := [], lastPlotTime := 0 }
      [FetchOutcome.exn, FetchOutcome.exn]).stream.length
      = ([FetchOutcome.exn, FetchOutcome.exn] : List FetchOutcome).length - 2 ∧
    (monitorTick 300 0 { hist := [], lastPlotTime := 0 }
      [FetchOutcome.exn, FetchOutcome.exn]).output.displayedPositions
      = get_positions (([FetchOutcome.exn,
          FetchOutcome.exn] : List FetchOutcome).headD FetchOutcome.exn) ∧
    (monitorTick 300 0 { hist := [], lastPlotTime := 0 }
      [FetchOutcome.exn, FetchOutcome.exn]).state.hist
      = (get_account_value (([FetchOutcome.exn,
            FetchOutcome.exn] : List FetchOutcome).tail.headD
            FetchOutcome.exn)
          ({ hist := [], lastPlotTime := 0 } : LoopState).hist 0).2 ∧
    (monitorTick 300 0 { hist := [], lastPlotTime := 0 }
      [FetchOutcome.exn, FetchOutcome.exn]).output.displayedValue
      = (get_account_value (([FetchOutcome.exn,
            FetchOutcome.exn] : List FetchOutcome).tail.headD
            FetchOutcome.exn)
          ({ hist := [], lastPlotTime := 0 } : LoopState).hist 0).1 :=
  c5_two_fetches_amended 300 0 { hist := [], lastPlotTime := 0 }
    [FetchOutcome.exn, FetchOutcome.exn] (by decide)

/-- C8: after any number of ticks, the stop signal halts the loop from any
state: the session result is `stopped`, and exactly one final chart render
is attempted iff the equity history is nonempty at that moment (none is
attempted when it is empty); whatever that render's outcome (`none` no-op
or `some` artifact), the function still returns the stopped result. -/
theorem c8_stop_final_render (ui pi : Int) (n : Nat)
    (stream : List FetchOutcome) (now : Int) (st : LoopState) :
    (monitor ui pi n stream now st).stopped = true ∧
    (monitor ui pi n stream now st).finalRender
      = (if (monitor ui pi n stream now st).finalState.hist.isEmpty then none
         else some (plot_account_value (now + ui * (n : Int))
           (monitor ui pi n stream now st).finalState.hist)) := by
  induction n generalizing stream now st with
  | zero =>
    constructor
    · rfl
    · simp [monitor]
  | succ n ih =>
    have h := ih (monitorTick pi now st stream).stream (now + ui)
      (monitorTick pi now st stream).state
    constructor
    · simpa only [monitor] using h.1
    · have hc : now + ui + ui * (n : Int) = now + ui * ((n : Int) + 1) := by
        ring
      simp only [monitor]
      rw [h.2, hc]
      push_cast
      ring_nf

end HyperliquidMonitor

namespace HyperliquidMonitor

/-- C6: with a fetch sequence producing account values 1000, 1050, 900 at
instants `t0`, `t0 + 10`, `t0 + 20` (both fetches of each tick observe the
tick's value), after 3 ticks the retained history holds exactly those three
samples, the latest retained sample is `(t0 + 20, 900)`, and the
percent-change statistic computed from the first to the last retained
sample is `-10` (rendered as `-10.00%`). -/
theorem c6_end_to_end (t0 : Int) :
    (monitor 10 300 3
      [okValue 1000, okValue 1000, okValue 1050, okValue 1050,
       okValue 900, okValue 900] t0
      { hist := [], lastPlotTime := t0 }).finalState.hist
      = [{ timestamp := t0, value := 1000 },
         { timestamp := t0 + 10, value := 1050 },
         { timestamp := t0 + 20, value := 900 }] ∧
    latestSample
      (monitor 10 300 3
        [okValue 1000, okValue 1000, okValue 1050, okValue 1050,
         okValue 900, okValue 900] t0
        { hist := [], lastPlotTime := t0 }).finalState.hist
      = some { timestamp := t0 + 20, value := 900 } ∧
    chartChange
      (monitor 10 300 3
        [okValue 1000, okValue 1000, okValue 1050, okValue 1050,
         okValue 900, okValue 900] t0
        { hist := [], lastPlotTime := t0 }).finalState.hist
      = -10 := by
  have e1 : appendSample t0 1000 [] = [{ timestamp := t0, value := 1000 }] :=
    appendSample_keep t0 1000 [] (by simp)
  have e2 : appendSample (t0 + 10) 1050 [{ timestamp := t0, value := 1000 }]
      = [{ timestamp := t0, value := 1000 },
         { timestamp := t0 + 10, value := 1050 }] := by
    apply appendSample_keep
    intro s hs
    simp only [List.mem_singleton] at hs
    subst hs
    simp only [sevenDays]
    omega
  have e3 : appendSample (t0 + 20) 900
      [{ timestamp := t0, value := 1000 },
       { timestamp := t0 + 10, value := 1050 }]
      = [{ timestamp := t0, value := 1000 },
         { timestamp := t0 + 10, value := 1050 },
         { timestamp := t0 + 20, value := 900 }] := by
    apply appendSample_keep
    intro s hs
    simp only [List.mem_cons, List.mem_singleton, List.not_mem_nil,
      or_false] at hs
    rcases hs with hs | hs <;> subst hs <;> simp only [sevenDays] <;> omega
  have h3 : (3 : Nat) = Nat.succ (Nat.succ (Nat.succ 0)) := rfl
  have hh : (monitor 10 300 3
      [okValue 1000, okValue 1000, okValue 1050, okValue 1050,
       okValue 900, okValue 900] t0
      { hist := [], lastPlotTime := t0 }).finalState.hist
      = [{ timestamp := t0, value := 1000 },
         { timestamp := t0 + 10, value := 1050 },
         { timestamp := t0 + 20, value := 900 }] := by
    rw [h3]
    simp only [monitor, monitorTick, List.headD, List.tail_cons,
      get_account_value_okValue, get_positions_okValue]
    rw [e1]
    have ht1 : t0 + 10 + 10 = t0 + 20 := by ring
    rw [e2, ht1, e3]
  refine ⟨hh, ?_, ?_⟩
  · rw [hh]
    rfl
  · rw [hh]
    simp only [chartChange, List.map_cons, List.map_nil, List.headD,
      List.getLastD]
    norm_num

end HyperliquidMonitor
